import Mathlib

/-!
Shallow embedding of the vaa-research repository (decision/escalation logic).

Conventions used throughout:
* Python floats are modelled as `ℚ` (every constant in the source is a short
  decimal literal, and all comparisons are order comparisons, so rationals are
  an exact model).
* `dict.get(key, default)` on the metadata dictionary is modelled by `Option`
  fields together with `Option.getD`.
* Timestamps and `uuid4()` identifiers are omitted from result records: they
  are the only fields produced from the clock or the RNG and no claim
  mentions them.
* The formatted violation message strings of `validate_business_rules` are
  abstracted to the inductive `RuleViolation` (one constructor per `append`
  site in the source, in source order).
* A Python function that can raise is modelled with `Except String`; the
  error string names the Python exception.  In particular, for a pathway
  other than the two handled ones, `validate_business_rules` reads the local
  variable `rules` (line 252 of `business_operations_vaa.py`) without it ever
  being assigned, which raises `UnboundLocalError`.
-/

/-- `ComplianceLevel` from `business_operations_vaa.py`. -/
inductive ComplianceLevel where
  | green
  | yellow
  | red
  deriving DecidableEq, Repr

/-- Severity order GREEN < YELLOW < RED used to state monotonicity claims. -/
def ComplianceLevel.sev : ComplianceLevel → Nat
  | .green => 0
  | .yellow => 1
  | .red => 2

/-- The metadata dictionary keys that `validate_business_rules` and
`allocate_resources` read, with `none` modelling an absent key. -/
structure Metadata where
  vendor_rating : Option ℚ
  po_invoice_variance : Option ℚ
  is_duplicate : Option Bool
  estimated_hours : Option ℚ
  deriving DecidableEq, Repr

/-- `OperationalInput` dataclass from `business_operations_vaa.py`. -/
structure OperationalInput where
  input_id : String
  input_type : String
  entity_id : String
  amount : ℚ
  vendor_id : Option String
  metadata : Metadata
  received_timestamp : String
  priority_level : Int
  deriving DecidableEq, Repr

/-- The `procurement` entry of the compliance-rule table. -/
structure ProcurementRules where
  max_autonomous_approval : ℚ
  requires_review_above : ℚ
  vendor_whitelist_check : Bool
  compliance_rules : List String
  deriving DecidableEq, Repr

/-- The `invoicing` entry of the compliance-rule table. -/
structure InvoicingRules where
  auto_match_variance_tolerance : ℚ
  escalate_variance_above : ℚ
  duplicate_check_required : Bool
  compliance_rules : List String
  deriving DecidableEq, Repr

/-- The `resource_allocation` entry of the compliance-rule table. -/
structure ResourceAllocationRules where
  max_concurrent_assignments : Nat
  skill_match_required : Bool
  availability_buffer_hours : ℚ
  compliance_rules : List String
  deriving DecidableEq, Repr

/-- The whole table returned by `_initialize_compliance_rules`. -/
structure ComplianceRules where
  procurement : ProcurementRules
  invoicing : InvoicingRules
  resource_allocation : ResourceAllocationRules
  deriving DecidableEq, Repr

/-- `BusinessOperationsVAA._initialize_compliance_rules`, verbatim constants. -/
def initializeComplianceRules : ComplianceRules where
  procurement :=
    { max_autonomous_approval := 50000
      requires_review_above := 100000
      vendor_whitelist_check := true
      compliance_rules := ["three_way_match", "vendor_rating_minimum"] }
  invoicing :=
    { auto_match_variance_tolerance := 0.02
      escalate_variance_above := 0.05
      duplicate_check_required := true
      compliance_rules := ["no_duplicate_invoices", "currency_validation"] }
  resource_allocation :=
    { max_concurrent_assignments := 3
      skill_match_required := true
      availability_buffer_hours := 4
      compliance_rules := ["labor_hour_limits", "skill_certification"] }

/-- One constructor per `rule_violations.append` site in
`validate_business_rules`, abstracting the formatted message strings. -/
inductive RuleViolation where
  | amountExceedsReviewThreshold
  | amountSemiAutonomousRange
  | vendorRatingBelowMinimum
  | varianceExceedsThreshold
  | varianceRequiresReview
  | duplicateInvoice
  deriving DecidableEq, Repr

/-- `sum(risk_scores) / len(risk_scores) if risk_scores else 0.0`
(line 233 of `business_operations_vaa.py`). -/
def avgRisk (risk_scores : List ℚ) : ℚ :=
  if risk_scores.isEmpty then 0 else risk_scores.sum / risk_scores.length

/-- The procurement branch of `validate_business_rules` (lines 196-212):
returns the violations and risk scores appended by that branch, in order. -/
def procurementChecks (rules : ProcurementRules) (input_data : OperationalInput) :
    List RuleViolation × List ℚ :=
  let amountPart : List RuleViolation × List ℚ :=
    if input_data.amount > rules.requires_review_above then
      ([.amountExceedsReviewThreshold], [0.9])
    else if input_data.amount > rules.max_autonomous_approval then
      ([.amountSemiAutonomousRange], [0.5])
    else ([], [])
  let vendorPart : List RuleViolation × List ℚ :=
    if rules.vendor_whitelist_check then
      if input_data.metadata.vendor_rating.getD 0 < 3.5 then
        ([.vendorRatingBelowMinimum], [0.7])
      else ([], [])
    else ([], [])
  (amountPart.1 ++ vendorPart.1, amountPart.2 ++ vendorPart.2)

/-- The invoicing branch of `validate_business_rules` (lines 214-230). -/
def invoicingChecks (rules : InvoicingRules) (input_data : OperationalInput) :
    List RuleViolation × List ℚ :=
  let variance := input_data.metadata.po_invoice_variance.getD 0
  let variancePart : List RuleViolation × List ℚ :=
    if variance > rules.escalate_variance_above then
      ([.varianceExceedsThreshold], [0.8])
    else if variance > rules.auto_match_variance_tolerance then
      ([.varianceRequiresReview], [0.4])
    else ([], [])
  let duplicatePart : List RuleViolation × List ℚ :=
    if input_data.metadata.is_duplicate.getD false then
      ([.duplicateInvoice], [1.0])
    else ([], [])
  (variancePart.1 ++ duplicatePart.1, variancePart.2 ++ duplicatePart.2)

/-- The rule-evaluation phase of `validate_business_rules`: which violations
and risk scores are accumulated for a given pathway.  For a pathway other
than the two handled ones, no rule runs and both lists stay empty. -/
def riskChecks (rules : ComplianceRules) (input_data : OperationalInput)
    (pathway : String) : List RuleViolation × List ℚ :=
  if pathway = "procurement_validation_routing" then
    procurementChecks rules.procurement input_data
  else if pathway = "three_way_match_and_payment" then
    invoicingChecks rules.invoicing input_data
  else ([], [])

/-- Lines 235-240 of `business_operations_vaa.py`: map the averaged risk to
a compliance level with strict `>` comparisons. -/
def complianceStatusOf (avg_risk : ℚ) : ComplianceLevel :=
  if avg_risk > 0.7 then .red
  else if avg_risk > 0.4 then .yellow
  else .green

/-- The `compliance_rules` lookup on the local `rules` at line 252.  The local
`rules` is only assigned in the two pathway branches; any other pathway
raises `UnboundLocalError` there. -/
def rulesChecked (rules : ComplianceRules) (pathway : String) :
    Except String (List String) :=
  if pathway = "procurement_validation_routing" then
    .ok rules.procurement.compliance_rules
  else if pathway = "three_way_match_and_payment" then
    .ok rules.invoicing.compliance_rules
  else
    .error "UnboundLocalError: local variable rules referenced before assignment"

/-- The `audit_trail` dictionary of a `ComplianceCheckResult`
(timestamp omitted). -/
structure ComplianceAuditTrail where
  rules_checked : List String
  vaa_id : String
  regulatory_framework : String
  deriving DecidableEq, Repr

/-- `ComplianceCheckResult` dataclass (`check_id`, a fresh uuid, omitted). -/
structure ComplianceCheckResult where
  entity_id : String
  compliance_status : ComplianceLevel
  rule_violations : List RuleViolation
  risk_score : ℚ
  requires_human_review : Bool
  audit_trail : ComplianceAuditTrail
  deriving DecidableEq, Repr

/-- `BusinessOperationsVAA.validate_business_rules` (lines 183-259), as a
function of the rule table and the two instance strings it reads.  The
risk scores, average, status and review flag are computed first, exactly as
in the source; building the result then fails with `UnboundLocalError` when
the pathway matched neither branch. -/
def validate_business_rules (rules : ComplianceRules)
    (vaa_id regulatory_framework : String)
    (input_data : OperationalInput) (pathway : String) :
    Except String ComplianceCheckResult :=
  let checks := riskChecks rules input_data pathway
  let avg_risk := avgRisk checks.2
  let compliance_status := complianceStatusOf avg_risk
  let requires_review :=
    compliance_status = ComplianceLevel.yellow ∨
      compliance_status = ComplianceLevel.red
  (rulesChecked rules pathway).map fun rc =>
    { entity_id := input_data.entity_id
      compliance_status := compliance_status
      rule_violations := checks.1
      risk_score := avg_risk
      requires_human_review := decide requires_review
      audit_trail :=
        { rules_checked := rc
          vaa_id := vaa_id
          regulatory_framework := regulatory_framework } }

example :
    (validate_business_rules initializeComplianceRules "V" "SOX"
      { input_id := "PROC_001", input_type := "procurement_request"
        entity_id := "vendor_xyz_corp", amount := 75000
        vendor_id := some "VND_001"
        metadata :=
          { vendor_rating := some 4.2, po_invoice_variance := none
            is_duplicate := none, estimated_hours := some 1.5 }
        received_timestamp := "t0", priority_level := 2 }
      "procurement_validation_routing").map
        (fun r => (r.compliance_status, r.risk_score, r.requires_human_review))
      = .ok (.yellow, 0.5, true) := by
  norm_num [validate_business_rules, riskChecks, procurementChecks, rulesChecked,
    initializeComplianceRules, avgRisk, complianceStatusOf, Except.map]

/-- The fields of a `classify_input` result that later steps read
(`confidence_score` is drawn from `random.uniform(0.85, 0.98)` in the
source, so it stays an arbitrary parameter here). -/
structure Classification where
  process_pathway : String
  urgency_score : ℚ
  confidence_score : ℚ
  deriving DecidableEq, Repr

/-- `ResourceAllocation` dataclass (uuid and the timestamp-valued
`deadline` omitted). -/
structure ResourceAllocation where
  task_id : String
  assigned_team : String
  assigned_to : String
  estimated_hours : ℚ
  priority : Int
  resource_availability_check : Bool
  allocation_confidence : ℚ
  deriving DecidableEq, Repr

/-- The escalation record built by `execute_task` (lines 343-353),
minus uuid and timestamp. -/
structure EscalationRecord where
  status : String
  input_id : String
  escalation_reason : String
  compliance_issues : List RuleViolation
  risk_score : ℚ
  awaiting_approval_from : String
  deriving DecidableEq, Repr

/-- The `audit_trail` sub-dictionary of an execution result
(lines 371-380), minus timestamp and uuid. -/
structure ExecutionAudit where
  classification_confidence : ℚ
  compliance_status : ComplianceLevel
  compliance_risk_score : ℚ
  allocation_confidence : ℚ
  vaa_id : String
  regulatory_framework : String
  deriving DecidableEq, Repr

/-- The execution result built by `execute_task` (lines 358-381),
minus uuid and the timestamp fields. -/
structure ExecutionResult where
  status : String
  input_id : String
  process_pathway : String
  assigned_team : String
  assigned_to : String
  executed_by : String
  audit_trail : ExecutionAudit
  deriving DecidableEq, Repr

/-- The two shapes of dictionary `execute_task` can return. -/
inductive TaskOutcome where
  | escalated (record : EscalationRecord)
  | executing (result : ExecutionResult)
  deriving DecidableEq, Repr

/-- `BusinessOperationsVAA` instance state: the fields assigned in
`__init__` (the `resource_pool` dict is assigned once and never read
or written afterwards, so it is omitted). -/
structure BusinessOperationsVAA where
  vaa_id : String
  regulatory_framework : String
  process_log : List ExecutionResult
  escalation_queue : List EscalationRecord
  compliance_rules : ComplianceRules
  decision_audit_trail : List ExecutionAudit
  deriving DecidableEq, Repr

/-- `BusinessOperationsVAA.__init__`: empty logs, the fixed rule table. -/
def mkBusinessOperationsVAA (vaa_id : String)
    (regulatory_framework : String := "SOX_compliance") : BusinessOperationsVAA where
  vaa_id := vaa_id
  regulatory_framework := regulatory_framework
  process_log := []
  escalation_queue := []
  compliance_rules := initializeComplianceRules
  decision_audit_trail := []

/-- The `validate_business_rules` method, reading the rule table and the
two identifier strings off the instance. -/
def BusinessOperationsVAA.validate (vaa : BusinessOperationsVAA)
    (input_data : OperationalInput) (pathway : String) :
    Except String ComplianceCheckResult :=
  validate_business_rules vaa.compliance_rules vaa.vaa_id
    vaa.regulatory_framework input_data pathway

/-- The escalation record dictionary of `execute_task` (lines 343-353). -/
def escalationRecordOf (input_data : OperationalInput)
    (compliance_check : ComplianceCheckResult)
    (allocation : ResourceAllocation) : EscalationRecord where
  status := "escalated"
  input_id := input_data.input_id
  escalation_reason := "compliance_review_required"
  compliance_issues := compliance_check.rule_violations
  risk_score := compliance_check.risk_score
  awaiting_approval_from := allocation.assigned_to

/-- The execution result dictionary of `execute_task` (lines 358-381). -/
def executionResultOf (vaa : BusinessOperationsVAA)
    (input_data : OperationalInput) (classification : Classification)
    (compliance_check : ComplianceCheckResult)
    (allocation : ResourceAllocation) (human_approval : Option String) :
    ExecutionResult where
  status := "executing"
  input_id := input_data.input_id
  process_pathway := classification.process_pathway
  assigned_team := allocation.assigned_team
  assigned_to := allocation.assigned_to
  executed_by :=
    match human_approval with
    | none => "vaa_autonomous"
    | some approver => "approver_" ++ approver
  audit_trail :=
    { classification_confidence := classification.confidence_score
      compliance_status := compliance_check.compliance_status
      compliance_risk_score := compliance_check.risk_score
      allocation_confidence := allocation.allocation_confidence
      vaa_id := vaa.vaa_id
      regulatory_framework := vaa.regulatory_framework }

/-- `BusinessOperationsVAA.execute_task` (lines 327-387): escalate (append to
`escalation_queue`) when review is required and no approval is given,
otherwise append the execution result to `process_log` and its audit trail
to `decision_audit_trail`. -/
def execute_task (vaa : BusinessOperationsVAA) (input_data : OperationalInput)
    (classification : Classification) (compliance_check : ComplianceCheckResult)
    (allocation : ResourceAllocation) (human_approval : Option String) :
    TaskOutcome × BusinessOperationsVAA :=
  if compliance_check.requires_human_review ∧ human_approval = none then
    (.escalated (escalationRecordOf input_data compliance_check allocation),
      { vaa with
          escalation_queue :=
            vaa.escalation_queue ++
              [escalationRecordOf input_data compliance_check allocation] })
  else
    (.executing
        (executionResultOf vaa input_data classification compliance_check
          allocation human_approval),
      { vaa with
          process_log :=
            vaa.process_log ++
              [executionResultOf vaa input_data classification compliance_check
                allocation human_approval]
          decision_audit_trail :=
            vaa.decision_audit_trail ++
              [(executionResultOf vaa input_data classification compliance_check
                  allocation human_approval).audit_trail] })

/-- The arguments of one `execute_task` call. -/
structure TaskCall where
  input_data : OperationalInput
  classification : Classification
  compliance_check : ComplianceCheckResult
  allocation : ResourceAllocation
  human_approval : Option String
  deriving DecidableEq, Repr

/-- Run a sequence of `execute_task` calls, threading the instance state. -/
def runTasks (vaa : BusinessOperationsVAA) (calls : List TaskCall) :
    BusinessOperationsVAA :=
  calls.foldl
    (fun s c =>
      (execute_task s c.input_data c.classification c.compliance_check
        c.allocation c.human_approval).2) vaa

/-- The public operations of `BusinessOperationsVAA`, each with the inputs
that determine its state effect.  `classify_input`, `validate_business_rules`,
`allocate_resources`, `monitor_workflow_exceptions` and
`calculate_performance_indicators` assign no instance attribute in the
source, so they carry no data here; only `execute_task` writes state. -/
inductive BusinessOp where
  | classifyInput
  | validateBusinessRules
  | allocateResources
  | executeTask (c : TaskCall)
  | monitorWorkflowExceptions
  | calculatePerformanceIndicators
  deriving DecidableEq, Repr

/-- State effect of one public operation of `BusinessOperationsVAA`. -/
def stepBusinessOp (vaa : BusinessOperationsVAA) : BusinessOp → BusinessOperationsVAA
  | .executeTask c =>
      (execute_task vaa c.input_data c.classification c.compliance_check
        c.allocation c.human_approval).2
  | _ => vaa

/-- Run a sequence of public operations on a `BusinessOperationsVAA`. -/
def runBusinessOps (vaa : BusinessOperationsVAA) (ops : List BusinessOp) :
    BusinessOperationsVAA :=
  ops.foldl stepBusinessOp vaa

/-- `DecisionLevel` from `supply_chain_vaa_engine.py`. -/
inductive DecisionLevel where
  | autonomous
  | semi_autonomous
  | human_review
  | escalation
  deriving DecidableEq, Repr

/-- `ForecastData` dataclass (the constant `forecast_method` string omitted). -/
structure ForecastData where
  product_id : String
  location_id : String
  forecast_qty : Int
  lower_bound : Int
  upper_bound : Int
  accuracy_metric : ℚ
  historical_error_rate : ℚ
  horizon_days : Int
  deriving DecidableEq, Repr

/-- `InventoryAction` dataclass (timestamp and the formatted `reasoning`
string omitted). -/
structure InventoryAction where
  location_id : String
  product_id : String
  recommended_qty : Int
  action_type : String
  confidence_score : ℚ
  decision_level : DecisionLevel
  requires_approval : Bool
  deriving DecidableEq, Repr

/-- Python `int()` applied to a rational: truncation toward zero. -/
def pyInt (q : ℚ) : Int :=
  if 0 ≤ q then ⌊q⌋ else ⌈q⌉

/-- `DemandForecastingVAA._requires_human_approval` (lines 176-199).  The
`action_type` parameter is unused in the source body and is kept here for
shape fidelity. -/
def requiresHumanApproval (action_type : String) (qty : Int)
    (confidence : ℚ) (forecast : ForecastData) : Bool :=
  if confidence < 0.75 then true
  else if 1000 < |qty| then true
  else if forecast.historical_error_rate > 0.25 then true
  else false

/-- `DemandForecastingVAA._determine_decision_level` (lines 201-211), as a
function of the configured `autonomy_level` of the instance. -/
def determineDecisionLevel (autonomy_level : DecisionLevel) (confidence : ℚ)
    (action_type : String) (requires_approval : Bool) : DecisionLevel :=
  if requires_approval then
    if confidence < 0.65 then .escalation else .human_review
  else if autonomy_level = .autonomous ∧ confidence > 0.85 then .autonomous
  else .semi_autonomous

/-- `DemandForecastingVAA.generate_inventory_recommendation` (lines 123-174),
as a function of the `autonomy_level` of the instance.  Python defaults are
`lead_time_days=14`, `safety_stock_factor=0.2`. -/
def generate_inventory_recommendation (autonomy_level : DecisionLevel)
    (forecast : ForecastData) (current_inventory : Int)
    (lead_time_days : Int) (safety_stock_factor : ℚ) : InventoryAction :=
  let daily_demand : ℚ := (forecast.forecast_qty : ℚ) / (forecast.horizon_days : ℚ)
  let lead_time_demand : ℚ := daily_demand * (lead_time_days : ℚ)
  let safety_stock : Int := pyInt (daily_demand * (lead_time_days : ℚ) * safety_stock_factor)
  let reorder_point : ℚ := lead_time_demand + (safety_stock : ℚ)
  let actionAndQty : String × Int :=
    if (current_inventory : ℚ) < reorder_point then
      ("reorder", pyInt ((forecast.forecast_qty : ℚ) * 1.5))
    else if (current_inventory : ℚ) > (forecast.upper_bound : ℚ) * 2 then
      ("reduce", -(pyInt ((current_inventory : ℚ) * 0.3)))
    else
      ("maintain", 0)
  let confidence_score := forecast.accuracy_metric
  let requires_approval :=
    requiresHumanApproval actionAndQty.1 actionAndQty.2 confidence_score forecast
  let decision_level :=
    determineDecisionLevel autonomy_level confidence_score actionAndQty.1
      requires_approval
  { location_id := forecast.location_id
    product_id := forecast.product_id
    recommended_qty := actionAndQty.2
    action_type := actionAndQty.1
    confidence_score := confidence_score
    decision_level := decision_level
    requires_approval := requires_approval }

/-- The execution dictionary built by `execute_inventory_action`
(lines 233-247), minus timestamps and the formatted `action_id`. -/
structure InvExecutionResult where
  status : String
  product_id : String
  location_id : String
  recommended_qty : Int
  action_type : String
  executed_by : String
  confidence_score : ℚ
  autonomy_level : DecisionLevel
  deriving DecidableEq, Repr

/-- The two shapes of dictionary `execute_inventory_action` can return:
the escalation dictionary (status `escalated`, carrying the
decision level) or the execution dictionary. -/
inductive InvOutcome where
  | escalated (decision_level : DecisionLevel)
  | executed (result : InvExecutionResult)
  deriving DecidableEq, Repr

/-- `DemandForecastingVAA` instance state (model version and training date
are only read by reporting functions and omitted). -/
structure DemandForecastingVAA where
  vaa_id : String
  autonomy_level : DecisionLevel
  decision_log : List InvExecutionResult
  escalation_queue : List InventoryAction
  deriving DecidableEq, Repr

/-- `DemandForecastingVAA.__init__`. -/
def mkDemandForecastingVAA (vaa_id : String)
    (autonomy_level : DecisionLevel) : DemandForecastingVAA where
  vaa_id := vaa_id
  autonomy_level := autonomy_level
  decision_log := []
  escalation_queue := []

/-- The execution dictionary of `execute_inventory_action` (lines 233-247)
as a function of the action and the approver. -/
def invExecutionResultOf (action : InventoryAction)
    (approved_by_planner : Option String) : InvExecutionResult where
  status :=
    if action.decision_level ≠ DecisionLevel.escalation then "executed"
    else "pending_approval"
  product_id := action.product_id
  location_id := action.location_id
  recommended_qty := action.recommended_qty
  action_type := action.action_type
  executed_by :=
    match approved_by_planner with
    | none => "vaa_autonomous"
    | some planner => "planner_" ++ planner
  confidence_score := action.confidence_score
  autonomy_level := action.decision_level

/-- `DemandForecastingVAA.execute_inventory_action` (lines 213-252):
actions requiring approval without a planner are appended to
`escalation_queue`; every other call appends its execution dictionary to
`decision_log`. -/
def execute_inventory_action (vaa : DemandForecastingVAA)
    (action : InventoryAction) (approved_by_planner : Option String) :
    InvOutcome × DemandForecastingVAA :=
  if action.requires_approval ∧ approved_by_planner = none then
    (.escalated action.decision_level,
      { vaa with escalation_queue := vaa.escalation_queue ++ [action] })
  else
    (.executed (invExecutionResultOf action approved_by_planner),
      { vaa with
          decision_log :=
            vaa.decision_log ++ [invExecutionResultOf action approved_by_planner] })

/-- The arguments of one `execute_inventory_action` call. -/
structure InventoryCall where
  action : InventoryAction
  approved_by_planner : Option String
  deriving DecidableEq, Repr

/-- Run a sequence of `execute_inventory_action` calls. -/
def runInventoryActions (vaa : DemandForecastingVAA)
    (calls : List InventoryCall) : DemandForecastingVAA :=
  calls.foldl
    (fun s c => (execute_inventory_action s c.action c.approved_by_planner).2) vaa

/-- The drift report of `monitor_learning_drift`; the magnitude and percent
keys are absent from the early-return dictionary, hence `Option`. -/
structure DriftReport where
  drift_detected : Bool
  drift_magnitude : Option ℚ
  drift_percent : Option ℚ
  action : String
  deriving DecidableEq, Repr

/-- `DemandForecastingVAA.monitor_learning_drift` (lines 321-348), minus
timestamp and model version.  Python default is `threshold=0.10`. -/
def monitor_learning_drift (recent_errors : List ℚ) (threshold : ℚ) :
    DriftReport :=
  if recent_errors.isEmpty then
    { drift_detected := false
      drift_magnitude := none
      drift_percent := none
      action := "continue_monitoring" }
  else
    let avg_recent_error := recent_errors.sum / recent_errors.length
    let previous_baseline : ℚ := 0.15
    let drift_magnitude := avg_recent_error - previous_baseline
    let drift_percent :=
      if previous_baseline > 0 then drift_magnitude / previous_baseline * 100 else 0
    let drift_detected := |drift_percent| > threshold * 100
    { drift_detected := drift_detected
      drift_magnitude := some drift_magnitude
      drift_percent := some drift_percent
      action := if drift_detected then "trigger_retraining" else "continue_monitoring" }

/-- `SegmentType` from `marketing_vaa_orchestration.py`. -/
inductive SegmentType where
  | behavioral
  | demographic
  | value
  | lifecycle
  | engagement
  deriving DecidableEq, Repr

/-- `CustomerSegment` dataclass (the `characteristics` dictionary and the
creation timestamp, read by nothing the claims touch, omitted). -/
structure CustomerSegment where
  segment_id : String
  segment_name : String
  segment_type : SegmentType
  customer_count : Int
  targeting_rules : List String
  privacy_compliance_check : Bool
  fairness_score : ℚ
  deriving DecidableEq, Repr

/-- The `fairness_thresholds` sub-dictionary of the fairness constraints. -/
structure FairnessThresholds where
  max_conversion_rate_variance_between_segments : ℚ
  min_transparency_score : ℚ
  min_fairness_score : ℚ
  deriving DecidableEq, Repr

/-- The dictionary returned by `_initialize_fairness_constraints`. -/
structure FairnessConstraints where
  prohibited_targeting_attributes : List String
  fairness_thresholds : FairnessThresholds
  data_minimization : Bool
  consent_verification_required : Bool
  privacy_compliance_audits : String
  deriving DecidableEq, Repr

/-- `MarketingVAA._initialize_fairness_constraints`, verbatim constants. -/
def initializeFairnessConstraints : FairnessConstraints where
  prohibited_targeting_attributes :=
    ["race", "ethnicity", "religion", "sexual_orientation",
      "political_affiliation", "health_conditions"]
  fairness_thresholds :=
    { max_conversion_rate_variance_between_segments := 0.15
      min_transparency_score := 0.75
      min_fairness_score := 0.70 }
  data_minimization := true
  consent_verification_required := true
  privacy_compliance_audits := "quarterly"

/-- Does the character list start with the given pattern? -/
def startsWithSeq : List Char → List Char → Bool
  | _, [] => true
  | [], _ :: _ => false
  | a :: as, b :: bs => a = b && startsWithSeq as bs

/-- Python `pattern in s` on character lists: some suffix of `s` starts
with `pattern` (the empty pattern is always contained). -/
def containsSeq : List Char → List Char → Bool
  | [], pat => pat.isEmpty
  | a :: as, pat => startsWithSeq (a :: as) pat || containsSeq as pat

/-- `attr.lower() in rule.lower()` from `_validate_segment_fairness`. -/
def pyInLower (attr rule : String) : Bool :=
  containsSeq (rule.data.map Char.toLower) (attr.data.map Char.toLower)

/-- The result dictionary of `_validate_segment_fairness` (timestamp
omitted). -/
structure FairnessCheck where
  is_compliant : Bool
  prohibited_attributes_found : List String
  fairness_score : ℚ
  deriving DecidableEq, Repr

/-- `MarketingVAA._validate_segment_fairness` (lines 229-253): collect, in
rule-major order, every prohibited attribute occurring as a substring of a
targeting rule; compliant iff none found and the fairness score strictly
exceeds the configured minimum. -/
def validateSegmentFairness (constraints : FairnessConstraints)
    (segment : CustomerSegment) : FairnessCheck :=
  let prohibited_found :=
    segment.targeting_rules.flatMap fun rule =>
      constraints.prohibited_targeting_attributes.filter fun attr =>
        pyInLower attr rule
  { is_compliant :=
      prohibited_found.isEmpty &&
        decide (segment.fairness_score >
          constraints.fairness_thresholds.min_fairness_score)
    prohibited_attributes_found := prohibited_found
    fairness_score := segment.fairness_score }

/-- An entry of `ethical_audit_trail`: a fairness concern logged by
`_log_fairness_concern`, or a fairness-assessment audit logged by
`_log_fairness_audit` (uuids and timestamps omitted). -/
inductive EthicalAuditEntry where
  | fairnessConcern (segment_id : String) (prohibited_attributes : List String)
      (fairness_score : ℚ)
  | fairnessAudit (disparity_ratio : ℚ) (fairness_status : String)
  deriving DecidableEq, Repr

/-- `PerformanceInsight` (uuid, timestamp and the formatted recommendation
string omitted; the recommendation branch is kept via `confidence_score`,
which the source sets per branch). -/
structure MPerformanceInsight where
  campaign_id : String
  segment_id : String
  metric_name : String
  current_value : ℚ
  expected_value : ℚ
  variance_percent : ℚ
  confidence_score : ℚ
  deriving DecidableEq, Repr

/-- `BudgetAllocation` as stored into `self.campaigns` (uuid and the
per-channel/per-segment breakdown dictionaries omitted; `expected_roi` is
the only derived number kept). -/
structure MBudgetAllocation where
  campaign_id : String
  total_budget : ℚ
  expected_roi : ℚ
  deriving DecidableEq, Repr

/-- `MarketingVAA` instance state. -/
structure MarketingVAA where
  vaa_id : String
  privacy_framework : String
  campaigns : List (String × MBudgetAllocation)
  segments : List (String × CustomerSegment)
  performance_log : List MPerformanceInsight
  ethical_audit_trail : List EthicalAuditEntry
  fairness_constraints : FairnessConstraints
  deriving DecidableEq, Repr

/-- `MarketingVAA.__init__`. -/
def mkMarketingVAA (vaa_id : String) (privacy_framework : String) :
    MarketingVAA where
  vaa_id := vaa_id
  privacy_framework := privacy_framework
  campaigns := []
  segments := []
  performance_log := []
  ethical_audit_trail := []
  fairness_constraints := initializeFairnessConstraints

/-- Python `dict.update` / key assignment on an association list: existing
keys keep their position with the new value, new keys are appended. -/
def dictUpdate {α : Type} (base upd : List (String × α)) : List (String × α) :=
  (base.map fun p =>
    match upd.find? (fun q => q.1 == p.1) with
    | some q => (p.1, q.2)
    | none => p) ++
    upd.filter fun q => !(base.any fun p => p.1 == q.1)

/-- The three segments built by `segment_customers` (lines 149-218), as a
function of `len(customer_data)`; ids, targeting rules and fairness scores
are the literals of the source. -/
def builtSegments (customer_count : Nat) : List (String × CustomerSegment) :=
  [("behavioral_high_engagement",
    { segment_id := "seg_behavioral_high_engagement"
      segment_name := "High Engagement Users"
      segment_type := .behavioral
      customer_count := pyInt ((customer_count : ℚ) * 0.25)
      targeting_rules :=
        ["sessions_past_30_days > 5", "avg_session_duration > 10_minutes",
          "content_interactions > 15"]
      privacy_compliance_check := true
      fairness_score := 0.89 }),
   ("value_high_lifetime",
    { segment_id := "seg_value_high_lifetime"
      segment_name := "High Customer Lifetime Value"
      segment_type := .value
      customer_count := pyInt ((customer_count : ℚ) * 0.15)
      targeting_rules :=
        ["lifetime_transactions > 10", "avg_order_value > 150_usd",
          "churn_risk_score < 0.3"]
      privacy_compliance_check := true
      fairness_score := 0.92 }),
   ("lifecycle_at_risk",
    { segment_id := "seg_lifecycle_at_risk"
      segment_name := "At-Risk / Churn Candidates"
      segment_type := .lifecycle
      customer_count := pyInt ((customer_count : ℚ) * 0.10)
      targeting_rules :=
        ["days_since_last_purchase > 60", "engagement_decline_90_days > 40%",
          "churn_risk_score > 0.60"]
      privacy_compliance_check := true
      fairness_score := 0.85 })]

/-- The body of the fairness-validation loop of `segment_customers`
(lines 220-224): validate one segment and log a concern via
`_log_fairness_concern` when it is not compliant. -/
def logConcernStep (s : MarketingVAA) (p : String × CustomerSegment) :
    MarketingVAA :=
  let fairness_check := validateSegmentFairness s.fairness_constraints p.2
  if fairness_check.is_compliant then s
  else
    { s with
        ethical_audit_trail :=
          s.ethical_audit_trail ++
            [.fairnessConcern p.2.segment_id
              fairness_check.prohibited_attributes_found p.2.fairness_score] }

/-- `MarketingVAA.segment_customers` (lines 141-227): build the three
segments, log a fairness concern for each non-compliant one, then merge
them into `self.segments`. -/
def segment_customers (vaa : MarketingVAA) (customer_count : Nat) :
    List (String × CustomerSegment) × MarketingVAA :=
  let segments := builtSegments customer_count
  let afterConcerns := segments.foldl logConcernStep vaa
  (segments,
    { afterConcerns with
        segments := dictUpdate afterConcerns.segments segments })

/-- The metadata dictionary keys `generate_performance_insights` reads. -/
structure ActualMetrics where
  conversion_rate : Option ℚ
  expected_conversion_rate : Option ℚ
  deriving DecidableEq, Repr

/-- `MarketingVAA.generate_performance_insights` (lines 391-435): build one
insight from the actual metrics and append it to `performance_log`. -/
def generate_performance_insights (vaa : MarketingVAA)
    (campaign_id segment_id : String) (actual_metrics : ActualMetrics) :
    MPerformanceInsight × MarketingVAA :=
  let current_value := actual_metrics.conversion_rate.getD 0.035
  let expected_value := actual_metrics.expected_conversion_rate.getD 0.040
  let variance_percent :=
    if expected_value > 0 then
      (current_value - expected_value) / expected_value * 100
    else 0
  let confidence_score : ℚ :=
    if variance_percent < -10 then 0.78
    else if variance_percent > 10 then 0.85
    else 0.72
  let insight : MPerformanceInsight :=
    { campaign_id := campaign_id
      segment_id := segment_id
      metric_name := "conversion_rate"
      current_value := current_value
      expected_value := expected_value
      variance_percent := variance_percent
      confidence_score := confidence_score }
  (insight, { vaa with performance_log := vaa.performance_log ++ [insight] })

/-- `MarketingVAA.calculate_fairness_metrics` (lines 437-476): the three
conversion rates are hardcoded; the disparity ratio is max/min; an audit
entry is appended via `_log_fairness_audit`. -/
def calculate_fairness_metrics (vaa : MarketingVAA) :
    (ℚ × String) × MarketingVAA :=
  let max_rate : ℚ := max 0.042 (max 0.048 0.029)
  let min_rate : ℚ := min 0.042 (min 0.048 0.029)
  let disparity_ratio := if min_rate > 0 then max_rate / min_rate else 1.0
  let fairness_status :=
    if disparity_ratio < 1.25 then "within_threshold" else "requires_review"
  ((disparity_ratio, fairness_status),
    { vaa with
        ethical_audit_trail :=
          vaa.ethical_audit_trail ++
            [.fairnessAudit disparity_ratio fairness_status] })

/-- `MarketingVAA.allocate_campaign_budget` (lines 324-389): the allocation
is deterministic in `campaign_id` and `total_budget` (`expected_roi` is the
mean of the three hardcoded segment ROIs); it is stored under `campaign_id`
in `self.campaigns`. -/
def allocate_campaign_budget (vaa : MarketingVAA) (campaign_id : String)
    (total_budget : ℚ) : MBudgetAllocation × MarketingVAA :=
  let expected_roi : ℚ := (3.5 + 4.2 + 2.8) / 3
  let allocation : MBudgetAllocation :=
    { campaign_id := campaign_id
      total_budget := total_budget
      expected_roi := expected_roi }
  (allocation,
    { vaa with campaigns := dictUpdate vaa.campaigns [(campaign_id, allocation)] })

/-- The public operations of `MarketingVAA` with the inputs that determine
their state effects.  `personalize_content` and `ab_test_content_variants`
assign no instance attribute in the source. -/
inductive MarketingOp where
  | segmentCustomers (customer_count : Nat)
  | personalizeContent
  | allocateCampaignBudget (campaign_id : String) (total_budget : ℚ)
  | generatePerformanceInsights (campaign_id segment_id : String)
      (actual_metrics : ActualMetrics)
  | calculateFairnessMetrics
  | abTestContentVariants
  deriving DecidableEq, Repr

/-- State effect of one public operation of `MarketingVAA`. -/
def stepMarketingOp (vaa : MarketingVAA) : MarketingOp → MarketingVAA
  | .segmentCustomers n => (segment_customers vaa n).2
  | .personalizeContent => vaa
  | .allocateCampaignBudget cid budget => (allocate_campaign_budget vaa cid budget).2
  | .generatePerformanceInsights cid sid m =>
      (generate_performance_insights vaa cid sid m).2
  | .calculateFairnessMetrics => (calculate_fairness_metrics vaa).2
  | .abTestContentVariants => vaa

/-- Run a sequence of public operations on a `MarketingVAA`. -/
def runMarketingOps (vaa : MarketingVAA) (ops : List MarketingOp) : MarketingVAA :=
  ops.foldl stepMarketingOp vaa

/-! ### Helper lemmas -/

/-- The procurement pathway always returns a result, whose violations and
risk score come from `procurementChecks`. -/
lemma validate_proc_eq (rules : ComplianceRules) (vid rf : String)
    (i : OperationalInput) :
    validate_business_rules rules vid rf i "procurement_validation_routing" =
      .ok
        { entity_id := i.entity_id
          compliance_status :=
            complianceStatusOf (avgRisk (procurementChecks rules.procurement i).2)
          rule_violations := (procurementChecks rules.procurement i).1
          risk_score := avgRisk (procurementChecks rules.procurement i).2
          requires_human_review :=
            decide
              (complianceStatusOf (avgRisk (procurementChecks rules.procurement i).2) =
                  ComplianceLevel.yellow ∨
                complianceStatusOf (avgRisk (procurementChecks rules.procurement i).2) =
                  ComplianceLevel.red)
          audit_trail :=
            { rules_checked := rules.procurement.compliance_rules
              vaa_id := vid
              regulatory_framework := rf } } := by
  simp [validate_business_rules, rulesChecked, riskChecks, Except.map]

/-- The invoicing pathway always returns a result, whose violations and
risk score come from `invoicingChecks`. -/
lemma validate_inv_eq (rules : ComplianceRules) (vid rf : String)
    (i : OperationalInput) :
    validate_business_rules rules vid rf i "three_way_match_and_payment" =
      .ok
        { entity_id := i.entity_id
          compliance_status :=
            complianceStatusOf (avgRisk (invoicingChecks rules.invoicing i).2)
          rule_violations := (invoicingChecks rules.invoicing i).1
          risk_score := avgRisk (invoicingChecks rules.invoicing i).2
          requires_human_review :=
            decide
              (complianceStatusOf (avgRisk (invoicingChecks rules.invoicing i).2) =
                  ComplianceLevel.yellow ∨
                complianceStatusOf (avgRisk (invoicingChecks rules.invoicing i).2) =
                  ComplianceLevel.red)
          audit_trail :=
            { rules_checked := rules.invoicing.compliance_rules
              vaa_id := vid
              regulatory_framework := rf } } := by
  simp [validate_business_rules, rulesChecked, riskChecks, Except.map]

/-- Closed form of the procurement compliance status under the shipped rule
table: RED above 100000, YELLOW between the bounds, and below 50000 a
failing vendor rating alone yields YELLOW, otherwise GREEN. -/
lemma proc_status_closed (vid rf : String) (i : OperationalInput)
    (r : ComplianceCheckResult)
    (h : validate_business_rules initializeComplianceRules vid rf i
      "procurement_validation_routing" = .ok r) :
    r.compliance_status =
      (if i.amount > 100000 then .red
       else if i.amount > 50000 then .yellow
       else if i.metadata.vendor_rating.getD 0 < 3.5 then .yellow
       else .green) := by
  rw [validate_proc_eq] at h
  obtain rfl : _ = r := Except.ok.inj h
  by_cases h1 : i.amount > 100000 <;>
    by_cases h2 : i.amount > 50000 <;>
    by_cases h3 : i.metadata.vendor_rating.getD 0 < 3.5 <;>
    simp [procurementChecks, initializeComplianceRules, h1, h2, h3] <;>
    norm_num [avgRisk, complianceStatusOf]

/-- Closed form of the invoicing compliance status with no duplicate flag:
RED above 5% variance, else GREEN (a mid-range variance reaches only risk
0.4, which the strict `>` comparison leaves at GREEN). -/
lemma inv_status_closed_nodup (vid rf : String) (i : OperationalInput)
    (r : ComplianceCheckResult)
    (hdup : i.metadata.is_duplicate.getD false = false)
    (h : validate_business_rules initializeComplianceRules vid rf i
      "three_way_match_and_payment" = .ok r) :
    r.compliance_status =
      (if i.metadata.po_invoice_variance.getD 0 > 0.05 then .red else .green) := by
  rw [validate_inv_eq] at h
  obtain rfl : _ = r := Except.ok.inj h
  by_cases h1 : i.metadata.po_invoice_variance.getD 0 > 0.05 <;>
    by_cases h2 : i.metadata.po_invoice_variance.getD 0 > 0.02 <;>
    simp [invoicingChecks, initializeComplianceRules, h1, h2, hdup] <;>
    norm_num [avgRisk, complianceStatusOf]

/-! ### C1: boundary inclusivity -/

/-- C1: boundary values are inclusive on the lower-severity side.  With the
shipped bounds (`max_autonomous_approval = 50000`,
`requires_review_above = 100000`): an amount of exactly 50000 records no
amount violation; an amount of exactly 100000 records the semi-autonomous
violation (risk 0.5) and not the review-threshold violation (risk 0.9);
and an average risk of exactly 0.4 classifies GREEN while exactly 0.7
classifies YELLOW — equality never escalates to the stricter bucket. -/
theorem boundary_inclusivity :
    (∀ (i : OperationalInput) (vid rf : String) (r : ComplianceCheckResult),
        i.amount = 50000 →
        validate_business_rules initializeComplianceRules vid rf i
          "procurement_validation_routing" = .ok r →
        RuleViolation.amountExceedsReviewThreshold ∉ r.rule_violations ∧
          RuleViolation.amountSemiAutonomousRange ∉ r.rule_violations) ∧
    (∀ (i : OperationalInput) (vid rf : String) (r : ComplianceCheckResult),
        i.amount = 100000 →
        validate_business_rules initializeComplianceRules vid rf i
          "procurement_validation_routing" = .ok r →
        RuleViolation.amountSemiAutonomousRange ∈ r.rule_violations ∧
          RuleViolation.amountExceedsReviewThreshold ∉ r.rule_violations ∧
          (0.5 : ℚ) ∈
            (riskChecks initializeComplianceRules i "procurement_validation_routing").2 ∧
          (0.9 : ℚ) ∉
            (riskChecks initializeComplianceRules i "procurement_validation_routing").2) ∧
    complianceStatusOf 0.4 = .green ∧
    complianceStatusOf 0.7 = .yellow := by
  refine ⟨?_, ?_, ?_, ?_⟩
  · intro i vid rf r h50 h
    rw [validate_proc_eq] at h
    obtain rfl : _ = r := Except.ok.inj h
    norm_num [procurementChecks, initializeComplianceRules, h50]
    split_ifs <;> norm_num <;> decide
  · intro i vid rf r h100 h
    rw [validate_proc_eq] at h
    obtain rfl : _ = r := Except.ok.inj h
    norm_num [procurementChecks, riskChecks, initializeComplianceRules, h100]
    split_ifs <;> norm_num <;> decide
  · norm_num [complianceStatusOf]
  · norm_num [complianceStatusOf]

/-- A procurement input with the given amount and a passing vendor rating,
used to instantiate hypotheses at the exact bounds. -/
def procInputAt (amount : ℚ) : OperationalInput where
  input_id := "PROC_W"
  input_type := "procurement_request"
  entity_id := "vendor_w"
  amount := amount
  vendor_id := some "VND_W"
  metadata :=
    { vendor_rating := some 4.0
      po_invoice_variance := none
      is_duplicate := none
      estimated_hours := none }
  received_timestamp := "t0"
  priority_level := 3

/-- The compliance result for `procInputAt 50000`. -/
def procResult50000 : ComplianceCheckResult where
  entity_id := "vendor_w"
  compliance_status := .green
  rule_violations := []
  risk_score := 0
  requires_human_review := false
  audit_trail :=
    { rules_checked := ["three_way_match", "vendor_rating_minimum"]
      vaa_id := "W"
      regulatory_framework := "SOX_compliance" }

/-- The compliance result for `procInputAt 100000`. -/
def procResult100000 : ComplianceCheckResult where
  entity_id := "vendor_w"
  compliance_status := .yellow
  rule_violations := [.amountSemiAutonomousRange]
  risk_score := 0.5
  requires_human_review := true
  audit_trail :=
    { rules_checked := ["three_way_match", "vendor_rating_minimum"]
      vaa_id := "W"
      regulatory_framework := "SOX_compliance" }

/-- Witness for C1 at the two exact bounds. -/
theorem boundary_inclusivity_witness :
    (validate_business_rules initializeComplianceRules "W" "SOX_compliance"
        (procInputAt 50000) "procurement_validation_routing" = .ok procResult50000 ∧
      RuleViolation.amountExceedsReviewThreshold ∉ procResult50000.rule_violations ∧
      RuleViolation.amountSemiAutonomousRange ∉ procResult50000.rule_violations) ∧
    (validate_business_rules initializeComplianceRules "W" "SOX_compliance"
        (procInputAt 100000) "procurement_validation_routing" = .ok procResult100000 ∧
      RuleViolation.amountSemiAutonomousRange ∈ procResult100000.rule_violations) := by
  have h50 : validate_business_rules initializeComplianceRules "W" "SOX_compliance"
      (procInputAt 50000) "procurement_validation_routing" = .ok procResult50000 := by
    rw [validate_proc_eq]
    norm_num [procurementChecks, initializeComplianceRules, procInputAt,
      procResult50000, avgRisk, complianceStatusOf] <;> decide
  have h100 : validate_business_rules initializeComplianceRules "W" "SOX_compliance"
      (procInputAt 100000) "procurement_validation_routing" = .ok procResult100000 := by
    rw [validate_proc_eq]
    norm_num [procurementChecks, initializeComplianceRules, procInputAt,
      procResult100000, avgRisk, complianceStatusOf]
  have h1 := (boundary_inclusivity.1 (procInputAt 50000) "W" "SOX_compliance"
    procResult50000 rfl h50)
  have h2 := (boundary_inclusivity.2.1 (procInputAt 100000) "W" "SOX_compliance"
    procResult100000 rfl h100)
  exact ⟨⟨h50, h1.1, h1.2⟩, ⟨h100, h2.1⟩⟩

/-! ### C2: monotonicity -/

/-- An invoice input with the given variance and the duplicate flag set. -/
def invInputDup (variance : ℚ) : OperationalInput where
  input_id := "INV_C"
  input_type := "invoice"
  entity_id := "inv_entity"
  amount := 1000
  vendor_id := none
  metadata :=
    { vendor_rating := none
      po_invoice_variance := some variance
      is_duplicate := some true
      estimated_hours := none }
  received_timestamp := "t0"
  priority_level := 3

/-- Counterexample to C2: on the invoicing pathway with the duplicate flag
held fixed at `True`, the signal `po_invoice_variance = 0.01` yields RED
(average risk 1.0) while the larger signal `0.03` yields only YELLOW
(average risk (0.4 + 1.0)/2 = 0.7, not strictly above 0.7) — severity
strictly decreases as the signal grows. -/
theorem monotonicity_counterexample :
    (validate_business_rules initializeComplianceRules "BOPS_VAA_001"
        "SOX_compliance" (invInputDup 0.01) "three_way_match_and_payment").map
      ComplianceCheckResult.compliance_status = .ok .red ∧
    (validate_business_rules initializeComplianceRules "BOPS_VAA_001"
        "SOX_compliance" (invInputDup 0.03) "three_way_match_and_payment").map
      ComplianceCheckResult.compliance_status = .ok .yellow ∧
    (invInputDup 0.01).metadata.po_invoice_variance.getD 0 <
      (invInputDup 0.03).metadata.po_invoice_variance.getD 0 ∧
    ComplianceLevel.sev .yellow < ComplianceLevel.sev .red := by
  refine ⟨?_, ?_, by norm_num [invInputDup], by norm_num [ComplianceLevel.sev]⟩ <;>
    · rw [validate_inv_eq]
      norm_num [invoicingChecks, initializeComplianceRules, invInputDup,
        avgRisk, complianceStatusOf, Except.map]

/-- C2 (amended): severity is monotone in the signal on the procurement
pathway for any fixed vendor rating, and on the invoicing pathway when the
duplicate flag is absent or `False`; with a duplicate invoice the averaging
dilutes the risk 1.0 of the duplicate and monotonicity fails
(`monotonicity_counterexample`). -/
theorem monotonicity_amended :
    (∀ (i1 i2 : OperationalInput) (vid rf : String)
        (r1 r2 : ComplianceCheckResult),
        i1.metadata.vendor_rating = i2.metadata.vendor_rating →
        i1.amount < i2.amount →
        validate_business_rules initializeComplianceRules vid rf i1
          "procurement_validation_routing" = .ok r1 →
        validate_business_rules initializeComplianceRules vid rf i2
          "procurement_validation_routing" = .ok r2 →
        r1.compliance_status.sev ≤ r2.compliance_status.sev) ∧
    (∀ (i1 i2 : OperationalInput) (vid rf : String)
        (r1 r2 : ComplianceCheckResult),
        i1.metadata.is_duplicate.getD false = false →
        i2.metadata.is_duplicate.getD false = false →
        i1.metadata.po_invoice_variance.getD 0 <
          i2.metadata.po_invoice_variance.getD 0 →
        validate_business_rules initializeComplianceRules vid rf i1
          "three_way_match_and_payment" = .ok r1 →
        validate_business_rules initializeComplianceRules vid rf i2
          "three_way_match_and_payment" = .ok r2 →
        r1.compliance_status.sev ≤ r2.compliance_status.sev) := by
  constructor
  · intro i1 i2 vid rf r1 r2 hv hlt h1 h2
    have hvr : i1.metadata.vendor_rating.getD 0 = i2.metadata.vendor_rating.getD 0 := by
      rw [hv]
    rw [proc_status_closed vid rf i1 r1 h1, proc_status_closed vid rf i2 r2 h2, hvr]
    split_ifs <;> norm_num [ComplianceLevel.sev] <;> linarith
  · intro i1 i2 vid rf r1 r2 hd1 hd2 hlt h1 h2
    rw [inv_status_closed_nodup vid rf i1 r1 hd1 h1,
      inv_status_closed_nodup vid rf i2 r2 hd2 h2]
    split_ifs <;> norm_num [ComplianceLevel.sev] <;> linarith

/-- An invoice input with the given variance and the duplicate flag `False`. -/
def invInputND (variance : ℚ) : OperationalInput where
  input_id := "INV_W"
  input_type := "invoice"
  entity_id := "inv_entity_w"
  amount := 1000
  vendor_id := none
  metadata :=
    { vendor_rating := none
      po_invoice_variance := some variance
      is_duplicate := some false
      estimated_hours := none }
  received_timestamp := "t0"
  priority_level := 3

/-- The compliance result for `invInputND 0.01`. -/
def invResultND001 : ComplianceCheckResult where
  entity_id := "inv_entity_w"
  compliance_status := .green
  rule_violations := []
  risk_score := 0
  requires_human_review := false
  audit_trail :=
    { rules_checked := ["no_duplicate_invoices", "currency_validation"]
      vaa_id := "W"
      regulatory_framework := "SOX_compliance" }

/-- The compliance result for `invInputND 0.06`. -/
def invResultND006 : ComplianceCheckResult where
  entity_id := "inv_entity_w"
  compliance_status := .red
  rule_violations := [.varianceExceedsThreshold]
  risk_score := 0.8
  requires_human_review := true
  audit_trail :=
    { rules_checked := ["no_duplicate_invoices", "currency_validation"]
      vaa_id := "W"
      regulatory_framework := "SOX_compliance" }

/-- Witness for the amended C2 on both pathways. -/
theorem monotonicity_amended_witness :
    ((procInputAt 50000).metadata.vendor_rating =
        (procInputAt 100000).metadata.vendor_rating ∧
      (procInputAt 50000).amount < (procInputAt 100000).amount ∧
      procResult50000.compliance_status.sev ≤
        procResult100000.compliance_status.sev) ∧
    ((invInputND 0.01).metadata.is_duplicate.getD false = false ∧
      (invInputND 0.01).metadata.po_invoice_variance.getD 0 <
        (invInputND 0.06).metadata.po_invoice_variance.getD 0 ∧
      invResultND001.compliance_status.sev ≤
        invResultND006.compliance_status.sev) := by
  have h50 : validate_business_rules initializeComplianceRules "W" "SOX_compliance"
      (procInputAt 50000) "procurement_validation_routing" = .ok procResult50000 := by
    rw [validate_proc_eq]
    norm_num [procurementChecks, initializeComplianceRules, procInputAt,
      procResult50000, avgRisk, complianceStatusOf] <;> decide
  have h100 : validate_business_rules initializeComplianceRules "W" "SOX_compliance"
      (procInputAt 100000) "procurement_validation_routing" = .ok procResult100000 := by
    rw [validate_proc_eq]
    norm_num [procurementChecks, initializeComplianceRules, procInputAt,
      procResult100000, avgRisk, complianceStatusOf] <;> decide
  have hi1 : validate_business_rules initializeComplianceRules "W" "SOX_compliance"
      (invInputND 0.01) "three_way_match_and_payment" = .ok invResultND001 := by
    rw [validate_inv_eq]
    norm_num [invoicingChecks, initializeComplianceRules, invInputND,
      invResultND001, avgRisk, complianceStatusOf] <;> decide
  have hi2 : validate_business_rules initializeComplianceRules "W" "SOX_compliance"
      (invInputND 0.06) "three_way_match_and_payment" = .ok invResultND006 := by
    rw [validate_inv_eq]
    norm_num [invoicingChecks, initializeComplianceRules, invInputND,
      invResultND006, avgRisk, complianceStatusOf] <;> decide
  refine ⟨⟨rfl, by norm_num [procInputAt], ?_⟩, ⟨rfl, by norm_num [invInputND], ?_⟩⟩
  · exact monotonicity_amended.1 (procInputAt 50000) (procInputAt 100000) "W"
      "SOX_compliance" procResult50000 procResult100000 rfl
      (by norm_num [procInputAt]) h50 h100
  · exact monotonicity_amended.2 (invInputND 0.01) (invInputND 0.06) "W"
      "SOX_compliance" invResultND001 invResultND006 rfl rfl
      (by norm_num [invInputND]) hi1 hi2

/-! ### C3: empty aggregation -/

/-- A compliance-check input, routed by `classify_input` to the
`regulatory_assessment` pathway, which `validate_business_rules` does not
handle. -/
def regInputC3 : OperationalInput where
  input_id := "COMP_001"
  input_type := "compliance_check"
  entity_id := "entity_c3"
  amount := 500
  vendor_id := none
  metadata :=
    { vendor_rating := none
      po_invoice_variance := none
      is_duplicate := none
      estimated_hours := none }
  received_timestamp := "t0"
  priority_level := 3

/-- Counterexample to C3 as stated: on the `regulatory_assessment` pathway
the rule evaluation produces an empty risk-score list, yet
`validate_business_rules` does not return a GREEN result — it raises
`UnboundLocalError` while building the audit trail (line 252), because the
local `rules` was never assigned. -/
theorem empty_aggregation_counterexample :
    (riskChecks initializeComplianceRules regInputC3 "regulatory_assessment").2 = [] ∧
    validate_business_rules initializeComplianceRules "BOPS_VAA_001"
        "SOX_compliance" regInputC3 "regulatory_assessment" =
      .error "UnboundLocalError: local variable rules referenced before assignment" := by
  constructor
  · simp [riskChecks]
  · simp [validate_business_rules, rulesChecked, Except.map]

/-- C3 (amended): the averaging step itself is total — `avgRisk` of an empty
list is exactly 0 with no division — and whenever `validate_business_rules`
returns at all with an empty risk-score list (it does on the procurement and
invoicing pathways; any other pathway raises `UnboundLocalError` first, see
`empty_aggregation_counterexample`), the result has risk 0.0, GREEN and no
human review; `monitor_learning_drift` on an empty error list reports no
drift without dividing. -/
theorem empty_aggregation_amended :
    avgRisk [] = 0 ∧
    (∀ (i : OperationalInput) (vid rf p : String) (r : ComplianceCheckResult),
        (riskChecks initializeComplianceRules i p).2 = [] →
        validate_business_rules initializeComplianceRules vid rf i p = .ok r →
        r.risk_score = 0 ∧ r.compliance_status = .green ∧
          r.requires_human_review = false) ∧
    (∀ t : ℚ, (monitor_learning_drift [] t).drift_detected = false) := by
  refine ⟨by simp [avgRisk], ?_, fun t => by simp [monitor_learning_drift]⟩
  intro i vid rf p r hemp hok
  simp only [validate_business_rules] at hok
  cases hrc : rulesChecked initializeComplianceRules p with
  | error e => rw [hrc] at hok; simp [Except.map] at hok
  | ok rc =>
    rw [hrc] at hok
    simp only [Except.map, Except.ok.injEq] at hok
    rw [← hok]
    norm_num [hemp, avgRisk, complianceStatusOf]
    decide

/-- Witness for the amended C3: a low procurement amount with a passing
vendor rating produces no risk scores and a GREEN, review-free result. -/
theorem empty_aggregation_witness :
    (riskChecks initializeComplianceRules (procInputAt 20000)
      "procurement_validation_routing").2 = [] ∧
    procResult50000.risk_score = 0 ∧
    procResult50000.compliance_status = .green ∧
    procResult50000.requires_human_review = false ∧
    (monitor_learning_drift [] 0.10).drift_detected = false := by
  have hemp : (riskChecks initializeComplianceRules (procInputAt 20000)
      "procurement_validation_routing").2 = [] := by
    norm_num [riskChecks, procurementChecks, initializeComplianceRules, procInputAt]
  have hok : validate_business_rules initializeComplianceRules "W" "SOX_compliance"
      (procInputAt 20000) "procurement_validation_routing" = .ok procResult50000 := by
    rw [validate_proc_eq]
    norm_num [procurementChecks, initializeComplianceRules, procInputAt,
      procResult50000, avgRisk, complianceStatusOf] <;> decide
  have h := empty_aggregation_amended.2.1 (procInputAt 20000) "W" "SOX_compliance"
    "procurement_validation_routing" procResult50000 hemp hok
  exact ⟨hemp, h.1, h.2.1, h.2.2, empty_aggregation_amended.2.2 0.10⟩

/-! ### C4: error raising discipline -/

/-- An input whose type falls through the pathway map of `classify_input` to
`default_processing`. -/
def defaultInputC4 : OperationalInput where
  input_id := "MISC_002"
  input_type := "allocation_misc"
  entity_id := "entity_c4"
  amount := 999
  vendor_id := none
  metadata :=
    { vendor_rating := none
      po_invoice_variance := none
      is_duplicate := none
      estimated_hours := none }
  received_timestamp := "t0"
  priority_level := 4

/-- Counterexample to C4: the source defines neither `ConfigurationError`
nor `InvalidSignalError`.  Construction never validates anything — any
argument pair yields the fixed rule table — and evaluation CAN fail, with
an `UnboundLocalError` (not one of the claimed two kinds) on the
`default_processing` pathway. -/
theorem error_discipline_counterexample :
    (mkBusinessOperationsVAA "VAA_X" "not_a_real_framework").compliance_rules =
      initializeComplianceRules ∧
    validate_business_rules initializeComplianceRules "VAA_X" "SOX_compliance"
        defaultInputC4 "default_processing" =
      .error "UnboundLocalError: local variable rules referenced before assignment" := by
  constructor
  · rfl
  · simp [validate_business_rules, rulesChecked, Except.map]

/-- C4 (amended): the source raises no `ConfigurationError` and no
`InvalidSignalError`.  `__init__` performs no threshold validation and
always succeeds with the fixed table; `validate_business_rules` always
returns a result on the procurement and invoicing pathways (for any signal
value whatsoever), and on every other pathway raises `UnboundLocalError`
at result-building time; no retry or recovery exists. -/
theorem error_discipline_amended :
    (∀ vid rf : String,
        (mkBusinessOperationsVAA vid rf).compliance_rules =
          initializeComplianceRules) ∧
    (∀ (i : OperationalInput) (vid rf : String),
        (validate_business_rules initializeComplianceRules vid rf i
            "procurement_validation_routing").toOption.isSome = true ∧
        (validate_business_rules initializeComplianceRules vid rf i
            "three_way_match_and_payment").toOption.isSome = true) ∧
    (∀ (i : OperationalInput) (vid rf p : String),
        p ≠ "procurement_validation_routing" →
        p ≠ "three_way_match_and_payment" →
        validate_business_rules initializeComplianceRules vid rf i p =
          .error "UnboundLocalError: local variable rules referenced before assignment") := by
  refine ⟨fun vid rf => rfl, ?_, ?_⟩
  · intro i vid rf
    rw [validate_proc_eq, validate_inv_eq]
    exact ⟨rfl, rfl⟩
  · intro i vid rf p h1 h2
    simp [validate_business_rules, rulesChecked, h1, h2, Except.map]

/-- Witness for the amended C4 at concrete pathways and inputs. -/
theorem error_discipline_witness :
    (mkBusinessOperationsVAA "VAA_W" "SOX_compliance").compliance_rules =
      initializeComplianceRules ∧
    (validate_business_rules initializeComplianceRules "VAA_W" "SOX_compliance"
        (procInputAt 42) "procurement_validation_routing").toOption.isSome = true ∧
    validate_business_rules initializeComplianceRules "VAA_W" "SOX_compliance"
        (procInputAt 42) "regulatory_assessment" =
      .error "UnboundLocalError: local variable rules referenced before assignment" := by
  refine ⟨error_discipline_amended.1 "VAA_W" "SOX_compliance",
    (error_discipline_amended.2.1 (procInputAt 42) "VAA_W" "SOX_compliance").1,
    error_discipline_amended.2.2 (procInputAt 42) "VAA_W" "SOX_compliance"
      "regulatory_assessment" (by decide) (by decide)⟩

/-! ### C5: the worked 75000 example -/

/-- The sample procurement input from the demo block of the module: amount 75000,
vendor rating 4.2. -/
def sampleInput75000 : OperationalInput where
  input_id := "PROC_001"
  input_type := "procurement_request"
  entity_id := "vendor_xyz_corp"
  amount := 75000
  vendor_id := some "VND_001"
  metadata :=
    { vendor_rating := some 4.2
      po_invoice_variance := none
      is_duplicate := none
      estimated_hours := some 1.5 }
  received_timestamp := "t0"
  priority_level := 2

/-- The compliance result the sample run produces. -/
def sampleCheckResult : ComplianceCheckResult where
  entity_id := "vendor_xyz_corp"
  compliance_status := .yellow
  rule_violations := [.amountSemiAutonomousRange]
  risk_score := 0.5
  requires_human_review := true
  audit_trail :=
    { rules_checked := ["three_way_match", "vendor_rating_minimum"]
      vaa_id := "BOPS_VAA_001"
      regulatory_framework := "SOX_ITGC" }

/-- The classification record of the sample run (its confidence is drawn
from the RNG in the source; any value makes the point). -/
def sampleClassification : Classification where
  process_pathway := "procurement_validation_routing"
  urgency_score := 0.29
  confidence_score := 0.9

/-- The allocation record of the sample run. -/
def sampleAllocation : ResourceAllocation where
  task_id := "PROC_001"
  assigned_team := "procurement_team"
  assigned_to := "proc_001"
  estimated_hours := 1.5
  priority := 2
  resource_availability_check := true
  allocation_confidence := 0.95

/-- The escalation record the sample run appends. -/
def sampleEscalationRecord : EscalationRecord where
  status := "escalated"
  input_id := "PROC_001"
  escalation_reason := "compliance_review_required"
  compliance_issues := [.amountSemiAutonomousRange]
  risk_score := 0.5
  awaiting_approval_from := "proc_001"

/-- Counterexample to the C5 statement of no forced escalation: amount 75000 does yield
exactly the semi-autonomous violation at risk 0.5 and status YELLOW, but
YELLOW sets `requires_human_review`, so the run with no human approval IS
forced to escalate: `execute_task` returns the `escalated` record and
appends it to the escalation queue. -/
theorem worked_example_counterexample :
    validate_business_rules initializeComplianceRules "BOPS_VAA_001" "SOX_ITGC"
        sampleInput75000 "procurement_validation_routing" = .ok sampleCheckResult ∧
    sampleCheckResult.requires_human_review = true ∧
    (execute_task (mkBusinessOperationsVAA "BOPS_VAA_001" "SOX_ITGC")
        sampleInput75000 sampleClassification sampleCheckResult sampleAllocation
        none).1 = .escalated sampleEscalationRecord ∧
    (execute_task (mkBusinessOperationsVAA "BOPS_VAA_001" "SOX_ITGC")
        sampleInput75000 sampleClassification sampleCheckResult sampleAllocation
        none).2.escalation_queue = [sampleEscalationRecord] := by
  refine ⟨?_, rfl, ?_, ?_⟩
  · rw [validate_proc_eq]
    norm_num [procurementChecks, initializeComplianceRules, sampleInput75000,
      sampleCheckResult, avgRisk, complianceStatusOf] <;> decide
  · simp [execute_task, escalationRecordOf, sampleCheckResult, sampleInput75000,
      sampleAllocation, sampleEscalationRecord]
  · simp [execute_task, escalationRecordOf, sampleCheckResult, sampleInput75000,
      sampleAllocation, sampleEscalationRecord, mkBusinessOperationsVAA]

/-- C5 (amended): the 75000 sample records exactly the semi-autonomous
violation with risk 0.5 and returns YELLOW — but YELLOW implies
`requires_human_review`, so without a human approval the run escalates:
`execute_task` returns an `escalated` record and appends it to the
escalation queue, for every classification, allocation and prior state. -/
theorem worked_example_amended :
    ∀ (cls : Classification) (alloc : ResourceAllocation)
      (vaa : BusinessOperationsVAA) (r : ComplianceCheckResult),
      validate_business_rules initializeComplianceRules "BOPS_VAA_001" "SOX_ITGC"
          sampleInput75000 "procurement_validation_routing" = .ok r →
      r.rule_violations = [.amountSemiAutonomousRange] ∧
      r.risk_score = 0.5 ∧
      r.compliance_status = .yellow ∧
      r.requires_human_review = true ∧
      (execute_task vaa sampleInput75000 cls r alloc none).1 =
        .escalated
          { status := "escalated"
            input_id := "PROC_001"
            escalation_reason := "compliance_review_required"
            compliance_issues := [.amountSemiAutonomousRange]
            risk_score := 0.5
            awaiting_approval_from := alloc.assigned_to } ∧
      (execute_task vaa sampleInput75000 cls r alloc none).2.escalation_queue =
        vaa.escalation_queue ++
          [{ status := "escalated"
             input_id := "PROC_001"
             escalation_reason := "compliance_review_required"
             compliance_issues := [.amountSemiAutonomousRange]
             risk_score := 0.5
             awaiting_approval_from := alloc.assigned_to }] := by
  intro cls alloc vaa r hok
  have hr : r = sampleCheckResult := by
    have h2 : validate_business_rules initializeComplianceRules "BOPS_VAA_001"
        "SOX_ITGC" sampleInput75000 "procurement_validation_routing" =
        .ok sampleCheckResult := by
      rw [validate_proc_eq]
      norm_num [procurementChecks, initializeComplianceRules, sampleInput75000,
        sampleCheckResult, avgRisk, complianceStatusOf] <;> decide
    rw [h2] at hok
    exact (Except.ok.inj hok).symm
  subst hr
  refine ⟨rfl, rfl, rfl, rfl, ?_, ?_⟩ <;>
    simp [execute_task, escalationRecordOf, sampleCheckResult, sampleInput75000]

/-- Witness for the amended C5 at the classification of the demo, allocation
and a fresh VAA. -/
theorem worked_example_witness :
    sampleCheckResult.rule_violations = [.amountSemiAutonomousRange] ∧
    sampleCheckResult.compliance_status = .yellow ∧
    (execute_task (mkBusinessOperationsVAA "BOPS_VAA_001" "SOX_ITGC")
        sampleInput75000 sampleClassification sampleCheckResult sampleAllocation
        none).1 = .escalated
          { status := "escalated"
            input_id := "PROC_001"
            escalation_reason := "compliance_review_required"
            compliance_issues := [.amountSemiAutonomousRange]
            risk_score := 0.5
            awaiting_approval_from := sampleAllocation.assigned_to } := by
  have hok : validate_business_rules initializeComplianceRules "BOPS_VAA_001"
      "SOX_ITGC" sampleInput75000 "procurement_validation_routing" =
      .ok sampleCheckResult := by
    rw [validate_proc_eq]
    norm_num [procurementChecks, initializeComplianceRules, sampleInput75000,
      sampleCheckResult, avgRisk, complianceStatusOf] <;> decide
  have h := worked_example_amended sampleClassification sampleAllocation
    (mkBusinessOperationsVAA "BOPS_VAA_001" "SOX_ITGC") sampleCheckResult hok
  exact ⟨h.1, h.2.2.1, h.2.2.2.2.1⟩

/-! ### C6: audit log growth -/

/-- One `execute_task` call appends exactly one record, at the end of
either the escalation queue or the process log. -/
lemma execute_task_effect (vaa : BusinessOperationsVAA) (c : TaskCall) :
    ∃ e p,
      (execute_task vaa c.input_data c.classification c.compliance_check
          c.allocation c.human_approval).2.escalation_queue =
        vaa.escalation_queue ++ e ∧
      (execute_task vaa c.input_data c.classification c.compliance_check
          c.allocation c.human_approval).2.process_log =
        vaa.process_log ++ p ∧
      e.length + p.length = 1 := by
  by_cases h : (c.compliance_check.requires_human_review : Prop) ∧
      c.human_approval = none
  · exact ⟨[escalationRecordOf c.input_data c.compliance_check c.allocation], [],
      by simp [execute_task, h], by simp [execute_task, h], rfl⟩
  · exact ⟨[], [executionResultOf vaa c.input_data c.classification
        c.compliance_check c.allocation c.human_approval],
      by simp [execute_task, h], by simp [execute_task, h], rfl⟩

/-- One `execute_inventory_action` call appends exactly one record, at the
end of either the escalation queue or the decision log. -/
lemma execute_inventory_action_effect (vaa : DemandForecastingVAA)
    (c : InventoryCall) :
    ∃ e d,
      (execute_inventory_action vaa c.action
          c.approved_by_planner).2.escalation_queue =
        vaa.escalation_queue ++ e ∧
      (execute_inventory_action vaa c.action
          c.approved_by_planner).2.decision_log =
        vaa.decision_log ++ d ∧
      e.length + d.length = 1 := by
  by_cases h : (c.action.requires_approval : Prop) ∧ c.approved_by_planner = none
  · exact ⟨[c.action], [], by simp [execute_inventory_action, h],
      by simp [execute_inventory_action, h], rfl⟩
  · exact ⟨[], [invExecutionResultOf c.action c.approved_by_planner],
      by simp [execute_inventory_action, h],
      by simp [execute_inventory_action, h], rfl⟩

/-- C6: over any sequence of calls, exactly one record is appended per call
— the combined size of the escalation queue and the execution log grows by
the number of calls, and the previously logged records are preserved in
order as a prefix (each call appends at the end).  This holds for
`execute_task` of `BusinessOperationsVAA` and for
`execute_inventory_action` of `DemandForecastingVAA`. -/
theorem audit_log_growth :
    (∀ (vaa : BusinessOperationsVAA) (calls : List TaskCall),
        (runTasks vaa calls).escalation_queue.length +
            (runTasks vaa calls).process_log.length =
          vaa.escalation_queue.length + vaa.process_log.length + calls.length ∧
        (∃ t, (runTasks vaa calls).escalation_queue = vaa.escalation_queue ++ t) ∧
        (∃ t, (runTasks vaa calls).process_log = vaa.process_log ++ t)) ∧
    (∀ (vaa : DemandForecastingVAA) (calls : List InventoryCall),
        (runInventoryActions vaa calls).escalation_queue.length +
            (runInventoryActions vaa calls).decision_log.length =
          vaa.escalation_queue.length + vaa.decision_log.length + calls.length ∧
        (∃ t, (runInventoryActions vaa calls).escalation_queue =
          vaa.escalation_queue ++ t) ∧
        (∃ t, (runInventoryActions vaa calls).decision_log =
          vaa.decision_log ++ t)) := by
  constructor
  · intro vaa calls
    induction calls generalizing vaa with
    | nil =>
      exact ⟨by simp [runTasks], ⟨[], by simp [runTasks]⟩, ⟨[], by simp [runTasks]⟩⟩
    | cons c cs ih =>
      obtain ⟨e, p, he, hp, hlen1⟩ := execute_task_effect vaa c
      obtain ⟨h1, ⟨t1, ht1⟩, ⟨t2, ht2⟩⟩ := ih (execute_task vaa c.input_data
        c.classification c.compliance_check c.allocation c.human_approval).2
      have hrun : runTasks vaa (c :: cs) = runTasks (execute_task vaa c.input_data
          c.classification c.compliance_check c.allocation c.human_approval).2 cs :=
        rfl
      rw [hrun]
      refine ⟨?_, ⟨e ++ t1, ?_⟩, ⟨p ++ t2, ?_⟩⟩
      · rw [he, hp] at h1
        simp only [List.length_append, List.length_cons] at h1 ⊢
        omega
      · rw [ht1, he, List.append_assoc]
      · rw [ht2, hp, List.append_assoc]
  · intro vaa calls
    induction calls generalizing vaa with
    | nil =>
      exact ⟨by simp [runInventoryActions], ⟨[], by simp [runInventoryActions]⟩,
        ⟨[], by simp [runInventoryActions]⟩⟩
    | cons c cs ih =>
      obtain ⟨e, d, he, hd, hlen1⟩ := execute_inventory_action_effect vaa c
      obtain ⟨h1, ⟨t1, ht1⟩, ⟨t2, ht2⟩⟩ := ih (execute_inventory_action vaa
        c.action c.approved_by_planner).2
      have hrun : runInventoryActions vaa (c :: cs) =
          runInventoryActions (execute_inventory_action vaa c.action
            c.approved_by_planner).2 cs := rfl
      rw [hrun]
      refine ⟨?_, ⟨e ++ t1, ?_⟩, ⟨d ++ t2, ?_⟩⟩
      · rw [he, hd] at h1
        simp only [List.length_append, List.length_cons] at h1 ⊢
        omega
      · rw [ht1, he, List.append_assoc]
      · rw [ht2, hd, List.append_assoc]

/-! ### C7: determinism of the signal-to-outcome mapping -/

/-- C7: the four outcome fields of `validate_business_rules` — status, risk
score, violations, review flag — depend only on the input and the rule
table: two instances with equal tables but arbitrary identifiers, logs and
histories agree on them for every input and pathway. -/
theorem validate_determinism :
    ∀ (v1 v2 : BusinessOperationsVAA) (i : OperationalInput) (p : String),
      v1.compliance_rules = v2.compliance_rules →
      (v1.validate i p).map
          (fun r => (r.compliance_status, r.risk_score, r.rule_violations,
            r.requires_human_review)) =
        (v2.validate i p).map
          (fun r => (r.compliance_status, r.risk_score, r.rule_violations,
            r.requires_human_review)) := by
  intro v1 v2 i p h
  simp only [BusinessOperationsVAA.validate, validate_business_rules, h]
  cases rulesChecked v2.compliance_rules p <;> simp [Except.map]

/-- Witness for C7: two differently named instances, one of them with a
non-empty history, map the sample input identically. -/
theorem validate_determinism_witness :
    ((mkBusinessOperationsVAA "BOPS_VAA_001" "SOX_ITGC").validate
        (procInputAt 75000) "procurement_validation_routing").map
      (fun r => (r.compliance_status, r.risk_score, r.rule_violations,
        r.requires_human_review)) =
    ((mkBusinessOperationsVAA "OTHER_VAA" "OTHER_FRAMEWORK").validate
        (procInputAt 75000) "procurement_validation_routing").map
      (fun r => (r.compliance_status, r.risk_score, r.rule_violations,
        r.requires_human_review)) :=
  validate_determinism _ _ _ _ rfl

/-! ### C8: threshold-table immutability -/

/-- `logConcernStep` never writes `fairness_constraints`. -/
lemma logConcernStep_constraints (s : MarketingVAA)
    (p : String × CustomerSegment) :
    (logConcernStep s p).fairness_constraints = s.fairness_constraints := by
  unfold logConcernStep
  dsimp only
  split <;> rfl

/-- The fairness-validation loop never writes `fairness_constraints`. -/
lemma concernFold_constraints (l : List (String × CustomerSegment))
    (s : MarketingVAA) :
    (l.foldl logConcernStep s).fairness_constraints = s.fairness_constraints := by
  induction l generalizing s with
  | nil => rfl
  | cons p l ih => rw [List.foldl_cons, ih, logConcernStep_constraints]

/-- Each public `BusinessOperationsVAA` operation preserves the rule table. -/
lemma stepBusinessOp_rules (vaa : BusinessOperationsVAA) (op : BusinessOp) :
    (stepBusinessOp vaa op).compliance_rules = vaa.compliance_rules := by
  cases op with
  | executeTask c =>
    show (execute_task vaa c.input_data c.classification c.compliance_check
      c.allocation c.human_approval).2.compliance_rules = vaa.compliance_rules
    unfold execute_task
    split <;> rfl
  | classifyInput => rfl
  | validateBusinessRules => rfl
  | allocateResources => rfl
  | monitorWorkflowExceptions => rfl
  | calculatePerformanceIndicators => rfl

/-- Each public `MarketingVAA` operation preserves the fairness constraints. -/
lemma stepMarketingOp_constraints (vaa : MarketingVAA) (op : MarketingOp) :
    (stepMarketingOp vaa op).fairness_constraints = vaa.fairness_constraints := by
  cases op with
  | segmentCustomers n =>
    show (segment_customers vaa n).2.fairness_constraints = vaa.fairness_constraints
    unfold segment_customers
    exact concernFold_constraints _ vaa
  | personalizeContent => rfl
  | allocateCampaignBudget cid budget => rfl
  | generatePerformanceInsights cid sid m => rfl
  | calculateFairnessMetrics => rfl
  | abTestContentVariants => rfl

/-- C8: the threshold configuration built at construction is never mutated:
after any sequence of public operations, `compliance_rules` (resp.
`fairness_constraints`) still equals the value the initializer returned at
construction. -/
theorem threshold_table_immutable :
    (∀ (vid rf : String) (ops : List BusinessOp),
        (runBusinessOps (mkBusinessOperationsVAA vid rf) ops).compliance_rules =
          initializeComplianceRules) ∧
    (∀ (vid pf : String) (ops : List MarketingOp),
        (runMarketingOps (mkMarketingVAA vid pf) ops).fairness_constraints =
          initializeFairnessConstraints) := by
  have hb : ∀ (ops : List BusinessOp) (vaa : BusinessOperationsVAA),
      (runBusinessOps vaa ops).compliance_rules = vaa.compliance_rules := by
    intro ops
    induction ops with
    | nil => intro vaa; rfl
    | cons op ops ih =>
      intro vaa
      show (runBusinessOps (stepBusinessOp vaa op) ops).compliance_rules = _
      rw [ih, stepBusinessOp_rules]
  have hm : ∀ (ops : List MarketingOp) (vaa : MarketingVAA),
      (runMarketingOps vaa ops).fairness_constraints = vaa.fairness_constraints := by
    intro ops
    induction ops with
    | nil => intro vaa; rfl
    | cons op ops ih =>
      intro vaa
      show (runMarketingOps (stepMarketingOp vaa op) ops).fairness_constraints = _
      rw [ih, stepMarketingOp_constraints]
  exact ⟨fun vid rf ops => hb ops _, fun vid pf ops => hm ops _⟩

/-! ### C9: decision-level consistency -/

/-- Case analysis of `_determine_decision_level`. -/
lemma determineDecisionLevel_spec (al : DecisionLevel) (conf : ℚ)
    (at1 : String) (ra : Bool) :
    (ra = true →
      (determineDecisionLevel al conf at1 ra = .escalation ↔ conf < 0.65) ∧
      (determineDecisionLevel al conf at1 ra = .human_review ↔ ¬conf < 0.65)) ∧
    (ra = false →
      (determineDecisionLevel al conf at1 ra = .autonomous ∨
        determineDecisionLevel al conf at1 ra = .semi_autonomous) ∧
      (determineDecisionLevel al conf at1 ra = .autonomous ↔
        al = .autonomous ∧ conf > 0.85)) := by
  unfold determineDecisionLevel
  constructor <;> intro h <;> subst h <;> simp <;>
    first
      | (split_ifs <;> simp_all)
      | exact fun _ => lt_or_le (0.85 : ℚ) conf

/-- C9: every action produced by `generate_inventory_recommendation`
satisfies the decision-level invariant — if it requires approval, its level
is ESCALATION exactly when its confidence is below 0.65 and HUMAN_REVIEW
otherwise; if not, its level is AUTONOMOUS or SEMI_AUTONOMOUS, with
AUTONOMOUS exactly when the VAA is configured AUTONOMOUS and the confidence
exceeds 0.85.  In particular an action not requiring approval is never
labelled HUMAN_REVIEW or ESCALATION. -/
theorem decision_level_consistency :
    ∀ (autonomy : DecisionLevel) (forecast : ForecastData)
      (current_inventory lead_time_days : Int) (ssf : ℚ) (a : InventoryAction),
      a = generate_inventory_recommendation autonomy forecast current_inventory
        lead_time_days ssf →
      (a.requires_approval = true →
        (a.decision_level = .escalation ↔ a.confidence_score < 0.65) ∧
        (a.decision_level = .human_review ↔ ¬a.confidence_score < 0.65)) ∧
      (a.requires_approval = false →
        (a.decision_level = .autonomous ∨ a.decision_level = .semi_autonomous) ∧
        (a.decision_level = .autonomous ↔
          autonomy = .autonomous ∧ a.confidence_score > 0.85)) := by
  intro autonomy forecast ci lt ssf a ha
  subst ha
  have hspec := determineDecisionLevel_spec autonomy
    (generate_inventory_recommendation autonomy forecast ci lt ssf).confidence_score
    (generate_inventory_recommendation autonomy forecast ci lt ssf).action_type
    (generate_inventory_recommendation autonomy forecast ci lt ssf).requires_approval
  exact hspec

/-- The forecast used to instantiate C9: confidence 0.9, error rate 0.1. -/
def wForecast : ForecastData where
  product_id := "PROD_001"
  location_id := "warehouse_us_central"
  forecast_qty := 300
  lower_bound := 250
  upper_bound := 350
  accuracy_metric := 0.9
  historical_error_rate := 0.1
  horizon_days := 30

/-- Witness for C9: the recommendation for `wForecast` with inventory 1000
needs no approval, and its decision level is SEMI_AUTONOMOUS. -/
theorem decision_level_consistency_witness :
    (generate_inventory_recommendation .semi_autonomous wForecast 1000 14
        0.2).requires_approval = false ∧
    ((generate_inventory_recommendation .semi_autonomous wForecast 1000 14
        0.2).decision_level = .autonomous ∨
      (generate_inventory_recommendation .semi_autonomous wForecast 1000 14
        0.2).decision_level = .semi_autonomous) := by
  have hra : (generate_inventory_recommendation .semi_autonomous wForecast 1000 14
      0.2).requires_approval = false := by
    norm_num [generate_inventory_recommendation, requiresHumanApproval, pyInt,
      wForecast]
  have h := (decision_level_consistency .semi_autonomous wForecast 1000 14 0.2
    (generate_inventory_recommendation .semi_autonomous wForecast 1000 14 0.2)
    rfl).2 hra
  exact ⟨hra, h.1⟩

/-! ### C10: escalation atomicity -/

/-- C10: each execution call touches exactly one log.  For
`execute_inventory_action`: an approval-requiring action with no planner is
returned as `escalated` and appended to `escalation_queue` with
`decision_log` untouched; every other call appends exactly one result to
`decision_log` with `escalation_queue` untouched.  The same dichotomy holds
for `execute_task` with respect to `escalation_queue` versus `process_log`
and `decision_audit_trail`. -/
theorem escalation_atomicity :
    (∀ (vaa : DemandForecastingVAA) (action : InventoryAction)
        (planner : Option String),
        (action.requires_approval = true → planner = none →
          (execute_inventory_action vaa action planner).1 =
              .escalated action.decision_level ∧
            (execute_inventory_action vaa action planner).2.escalation_queue =
              vaa.escalation_queue ++ [action] ∧
            (execute_inventory_action vaa action planner).2.decision_log =
              vaa.decision_log) ∧
        (¬(action.requires_approval = true ∧ planner = none) →
          (execute_inventory_action vaa action planner).1 =
              .executed (invExecutionResultOf action planner) ∧
            (execute_inventory_action vaa action planner).2.decision_log =
              vaa.decision_log ++ [invExecutionResultOf action planner] ∧
            (execute_inventory_action vaa action planner).2.escalation_queue =
              vaa.escalation_queue)) ∧
    (∀ (vaa : BusinessOperationsVAA) (c : TaskCall),
        (c.compliance_check.requires_human_review = true →
          c.human_approval = none →
          (execute_task vaa c.input_data c.classification c.compliance_check
              c.allocation c.human_approval).1 =
              .escalated (escalationRecordOf c.input_data c.compliance_check
                c.allocation) ∧
            (execute_task vaa c.input_data c.classification c.compliance_check
                c.allocation c.human_approval).2.escalation_queue =
              vaa.escalation_queue ++
                [escalationRecordOf c.input_data c.compliance_check c.allocation] ∧
            (execute_task vaa c.input_data c.classification c.compliance_check
                c.allocation c.human_approval).2.process_log = vaa.process_log ∧
            (execute_task vaa c.input_data c.classification c.compliance_check
                c.allocation c.human_approval).2.decision_audit_trail =
              vaa.decision_audit_trail) ∧
        (¬(c.compliance_check.requires_human_review = true ∧
            c.human_approval = none) →
          (execute_task vaa c.input_data c.classification c.compliance_check
              c.allocation c.human_approval).1 =
              .executing (executionResultOf vaa c.input_data c.classification
                c.compliance_check c.allocation c.human_approval) ∧
            (execute_task vaa c.input_data c.classification c.compliance_check
                c.allocation c.human_approval).2.process_log =
              vaa.process_log ++
                [executionResultOf vaa c.input_data c.classification
                  c.compliance_check c.allocation c.human_approval] ∧
            (execute_task vaa c.input_data c.classification c.compliance_check
                c.allocation c.human_approval).2.decision_audit_trail =
              vaa.decision_audit_trail ++
                [(executionResultOf vaa c.input_data c.classification
                    c.compliance_check c.allocation c.human_approval).audit_trail] ∧
            (execute_task vaa c.input_data c.classification c.compliance_check
                c.allocation c.human_approval).2.escalation_queue =
              vaa.escalation_queue)) := by
  constructor
  · intro vaa action planner
    constructor
    · intro h1 h2
      refine ⟨?_, ?_, ?_⟩ <;> simp [execute_inventory_action, h1, h2]
    · intro h
      refine ⟨?_, ?_, ?_⟩ <;> simp [execute_inventory_action, h]
  · intro vaa c
    constructor
    · intro h1 h2
      refine ⟨?_, ?_, ?_, ?_⟩ <;> simp [execute_task, h1, h2]
    · intro h
      refine ⟨?_, ?_, ?_, ?_⟩ <;> simp [execute_task, h]

/-- An approval-requiring inventory action used to instantiate C10. -/
def wAction : InventoryAction where
  location_id := "warehouse_us_central"
  product_id := "PROD_002"
  recommended_qty := 1200
  action_type := "reorder"
  confidence_score := 0.7
  decision_level := .human_review
  requires_approval := true

/-- A compliance result with no review requirement, used to instantiate the
non-escalating branch of C10 for `execute_task`. -/
def okCheckResult : ComplianceCheckResult where
  entity_id := "vendor_ok"
  compliance_status := .green
  rule_violations := []
  risk_score := 0
  requires_human_review := false
  audit_trail :=
    { rules_checked := ["three_way_match", "vendor_rating_minimum"]
      vaa_id := "BOPS_VAA_001"
      regulatory_framework := "SOX_ITGC" }

/-- Witness for C10 on both branches of both executors. -/
theorem escalation_atomicity_witness :
    ((execute_inventory_action (mkDemandForecastingVAA "SC_VAA_W" .semi_autonomous)
        wAction none).1 = .escalated .human_review ∧
      (execute_inventory_action (mkDemandForecastingVAA "SC_VAA_W" .semi_autonomous)
        wAction none).2.decision_log = [] ∧
      (execute_inventory_action (mkDemandForecastingVAA "SC_VAA_W" .semi_autonomous)
        wAction none).2.escalation_queue = [wAction]) ∧
    ((execute_inventory_action (mkDemandForecastingVAA "SC_VAA_W" .semi_autonomous)
        wAction (some "planner_jane")).2.escalation_queue = [] ∧
      (execute_inventory_action (mkDemandForecastingVAA "SC_VAA_W" .semi_autonomous)
        wAction (some "planner_jane")).2.decision_log =
        [invExecutionResultOf wAction (some "planner_jane")]) ∧
    ((execute_task (mkBusinessOperationsVAA "BOPS_VAA_W" "SOX_ITGC")
        (procInputAt 1000) sampleClassification okCheckResult sampleAllocation
        none).2.process_log =
      [executionResultOf (mkBusinessOperationsVAA "BOPS_VAA_W" "SOX_ITGC")
        (procInputAt 1000) sampleClassification okCheckResult sampleAllocation
        none] ∧
      (execute_task (mkBusinessOperationsVAA "BOPS_VAA_W" "SOX_ITGC")
        (procInputAt 1000) sampleClassification okCheckResult sampleAllocation
        none).2.escalation_queue = []) := by
  have h1 := (escalation_atomicity.1 (mkDemandForecastingVAA "SC_VAA_W"
    .semi_autonomous) wAction none).1 rfl rfl
  have h2 := (escalation_atomicity.1 (mkDemandForecastingVAA "SC_VAA_W"
    .semi_autonomous) wAction (some "planner_jane")).2 (by simp)
  have h3 := (escalation_atomicity.2 (mkBusinessOperationsVAA "BOPS_VAA_W"
    "SOX_ITGC")
    { input_data := procInputAt 1000
      classification := sampleClassification
      compliance_check := okCheckResult
      allocation := sampleAllocation
      human_approval := none }).2 (by simp [okCheckResult])
  exact ⟨⟨h1.1, h1.2.2, h1.2.1⟩, ⟨h2.2.2, h2.2.1⟩, ⟨h3.2.1, h3.2.2.2⟩⟩
